import Mathlib

/-!
Verification of the whoopskill CLI core: pagination, token lifecycle,
representative-record selection, strain assessment, and CLI validation.
Definitions are shallow embeddings of the TypeScript source
(src/api/client.ts, src/auth/tokens.ts, src/utils/format.ts, src/cli.ts).
All definitions come first, followed by the theorems.
-/

namespace Whoopskill

/-! ## Pagination (src/api/client.ts, fetchCollection) -/

/-- A single page returned by a collection endpoint: the record list and the
optional continuation token (ApiResponse in src/types/whoop.ts). The cursor
type is abstract (the code never inspects cursors, only their presence). -/
structure Page (C T : Type) where
  records : List T
  next_token : Option C

/-- Shallow embedding of the fetch-all loop of fetchCollection
(src/api/client.ts lines 100-109): request a page with the current cursor,
append its records, adopt the returned cursor, repeat while a cursor is
present. The remote collaborator is the function from cursor to page. Fuel
bounds the number of iterations so the definition is total; the theorem shows
the result is fuel-independent once fuel covers the page count, which is the
termination statement. Returns the accumulated records and the number of
requests issued, or none when fuel ran out. -/
def fetchCollectionAll {C T : Type} (server : Option C → Page C T) :
    Option C → Nat → Option (List T × Nat)
  | _, 0 => none
  | cursor, fuel + 1 =>
    let page := server cursor
    match page.next_token with
    | none => some (page.records, 1)
    | some t =>
      match fetchCollectionAll server (some t) fuel with
      | none => none
      | some (recs, n) => some (page.records ++ recs, n + 1)

/-- The canonical well-formed page chain for a finite record sequence:
page i holds the i-th record list and carries a cursor exactly when a
page i+1 exists; the last page carries none. Cursor none denotes the
initial request and maps to page 0. -/
def chainServer {T : Type} (pages : List (List T)) : Option Nat → Page Nat T :=
  fun cursor =>
    let i := cursor.getD 0
    { records := pages.getD i []
      next_token := if i + 1 < pages.length then some (i + 1) else none }

/-! ## Token lifecycle (src/auth/tokens.ts)

The stored credential file is modelled as explicit state: the parsed token
store is an `Option TokenData` (none = no stored credential), the raw file
contents are an `Option String` (none = file absent). Stateful functions
return the new store explicitly together with the count of token-exchange
network calls they issued, so that frame properties are statable. -/

/-- TokenData (src/types/whoop.ts): the persisted credential. Instants are
epoch seconds as integers, matching Math.floor(Date.now() / 1000). -/
structure TokenData where
  access_token : String
  refresh_token : String
  expires_at : Int
  token_type : String
  scope : String
deriving DecidableEq, Repr

/-- OAuthTokenResponse (src/types/whoop.ts): body of a successful
token-exchange response. -/
structure OAuthTokenResponse where
  access_token : String
  refresh_token : String
  expires_in : Int
  token_type : String
  scope : String
deriving DecidableEq, Repr

/-- The WhoopError cases the token lifecycle can raise. -/
inductive AuthError where
  | missingCreds
  | refreshRejected
  | notAuthenticated
deriving DecidableEq, Repr

/-- The environment a token-lifecycle call runs in: the parsed token store,
whether WHOOP_CLIENT_ID and WHOOP_CLIENT_SECRET are set, the outcome the
remote token-exchange endpoint would produce (some body on 2xx, none on a
rejection), and the current time in epoch seconds. -/
structure AuthEnv where
  store : Option TokenData
  hasClientCreds : Bool
  refreshResponse : Option OAuthTokenResponse
  now : Int
deriving DecidableEq, Repr

/-- Result of a stateful token-lifecycle call: the returned value or error,
the token store after the call, and how many token-exchange network calls
were issued. -/
structure AuthOutcome where
  result : Except AuthError TokenData
  store : Option TokenData
  exchangeCalls : Nat

/-- saveTokens (src/auth/tokens.ts lines 16-29): the TokenData written for a
token-exchange response, with expires_at = now + expires_in. -/
def saveTokens (now : Int) (r : OAuthTokenResponse) : TokenData :=
  { access_token := r.access_token
    refresh_token := r.refresh_token
    expires_at := now + r.expires_in
    token_type := r.token_type
    scope := r.scope }

/-- isTokenExpired (src/auth/tokens.ts lines 50-53): expired when
now >= expires_at - 60, i.e. within the 60-second safety margin or past. -/
def isTokenExpired (now : Int) (tokens : TokenData) : Bool :=
  decide (now ≥ tokens.expires_at - 60)

/-- refreshAccessToken (src/auth/tokens.ts lines 55-83): fail without client
credentials; otherwise issue one token-exchange call; on a non-2xx response
throw without touching the store; on success save the new pair and return the
reloaded credential. -/
def refreshAccessToken (env : AuthEnv) (_tokens : TokenData) : AuthOutcome :=
  if env.hasClientCreds = false then
    { result := .error .missingCreds, store := env.store, exchangeCalls := 0 }
  else
    match env.refreshResponse with
    | none => { result := .error .refreshRejected, store := env.store, exchangeCalls := 1 }
    | some r =>
      let saved := saveTokens env.now r
      { result := .ok saved, store := some saved, exchangeCalls := 1 }

/-- getValidTokens (src/auth/tokens.ts lines 85-97): fail if no credential is
stored; refresh when the stored credential is expired under the 60-second
margin; otherwise return it unchanged without any network call. -/
def getValidTokens (env : AuthEnv) : AuthOutcome :=
  match env.store with
  | none => { result := .error .notAuthenticated, store := none, exchangeCalls := 0 }
  | some tokens =>
    if isTokenExpired env.now tokens then refreshAccessToken env tokens
    else { result := .ok tokens, store := env.store, exchangeCalls := 0 }

/-- Return type of getTokenStatus (src/auth/tokens.ts lines 99-108). -/
structure TokenStatus where
  authenticated : Bool
  expires_at : Option Int
deriving DecidableEq, Repr

/-- getTokenStatus (src/auth/tokens.ts lines 99-108): report presence and
expiry of the stored credential. It only calls loadTokens (a read), so the
store passes through unchanged and no token-exchange call is issued. -/
def getTokenStatus (store : Option TokenData) : TokenStatus × Option TokenData × Nat :=
  match store with
  | none => ({ authenticated := false, expires_at := none }, store, 0)
  | some t => ({ authenticated := true, expires_at := some t.expires_at }, store, 0)

/-- clearTokens (src/auth/tokens.ts lines 44-48): when the token file exists,
overwrite it with the empty string; when absent, do nothing. The file is
never removed. -/
def clearTokens (file : Option String) : Option String :=
  match file with
  | none => none
  | some _ => some ""

/-- loadTokens (src/auth/tokens.ts lines 31-42): none when the file is
absent; otherwise parse the contents, with any parse exception caught and
turned into none. The JSON parser is the external JS runtime, passed in as a
function returning none exactly when JSON.parse (or the cast) throws. -/
def loadTokens (jsonParse : String → Option TokenData) (file : Option String) :
    Option TokenData :=
  match file with
  | none => none
  | some content => jsonParse content

/-! ## Representative-record selection (src/utils/format.ts) -/

/-- The score payload of a sleep record. Only the field needed by the
verified selection and summary logic is kept; the remaining stage-summary and
sleep-needed fields do not influence record selection. -/
structure SleepScore where
  sleep_performance_percentage : Option ℚ
deriving DecidableEq, Repr

/-- A sleep record as used by src/utils/format.ts: the nap flag, the scoring
state tag, and the optional score payload (null when not scored). The id
field distinguishes records. -/
structure WhoopSleep where
  id : Nat
  nap : Bool
  score_state : String
  score : Option SleepScore
deriving DecidableEq, Repr

/-- The arrow-function predicate inside getSleep (src/utils/format.ts
line 8): not a nap, state SCORED, and a non-null score payload. -/
def scoredNonNap (s : WhoopSleep) : Bool :=
  !s.nap && s.score_state == "SCORED" && s.score.isSome

/-- getSleep (src/utils/format.ts lines 7-9):
data.sleep?.find(s => !s.nap && s.score_state === SCORED && s.score)
?? data.sleep?.[0] — the first scored non-nap record, else the first record
in server order, else none when the list is absent or empty. -/
def getSleep (sleep : Option (List WhoopSleep)) : Option WhoopSleep :=
  match sleep with
  | none => none
  | some l =>
    match l.find? scoredNonNap with
    | some s => some s
    | none => l.head?

/-- The scored predicate regardless of the nap flag, used by the middle tier
of the selection policy as the spec states it. -/
def scoredAny (s : WhoopSleep) : Bool :=
  s.score_state == "SCORED" && s.score.isSome

/-- Modelled from the spec (section 4.3 selection policy), for comparison
with getSleep: (1) first scored non-nap record; (2) else first scored record
regardless of the nap flag; (3) else first record in server order. -/
def pickRepresentativeSpec (l : List WhoopSleep) : Option WhoopSleep :=
  match l.find? scoredNonNap with
  | some s => some s
  | none =>
    match l.find? scoredAny with
    | some s => some s
    | none => l.head?

/-- A pending (unscored) main sleep record. -/
def pendingMain : WhoopSleep :=
  { id := 0, nap := false, score_state := "PENDING", score := none }

/-- A scored nap record. -/
def scoredNap : WhoopSleep :=
  { id := 1, nap := true, score_state := "SCORED"
    score := some { sleep_performance_percentage := some 90 } }

/-- A scored main (non-nap) sleep record. -/
def scoredMain : WhoopSleep :=
  { id := 2, nap := false, score_state := "SCORED"
    score := some { sleep_performance_percentage := some 85 } }

/-! ## Strain assessment (src/utils/format.ts, formatSummaryColor) -/

/-- The score payload of a recovery record as read by format.ts. Fields not
read by the verified logic are elided. -/
structure RecoveryScore where
  recovery_score : ℚ
  hrv_rmssd_milli : ℚ
  resting_heart_rate : ℚ
deriving DecidableEq, Repr

/-- A recovery record as used by src/utils/format.ts. -/
structure WhoopRecovery where
  score_state : String
  score : Option RecoveryScore
deriving DecidableEq, Repr

/-- getRecovery (src/utils/format.ts lines 3-5): first scored recovery
record with a non-null score payload, else the first record. -/
def getRecovery (recovery : Option (List WhoopRecovery)) : Option WhoopRecovery :=
  match recovery with
  | none => none
  | some l =>
    match l.find? (fun r => r.score_state == "SCORED" && r.score.isSome) with
    | some r => some r
    | none => l.head?

/-- The score payload of a cycle record (src/types/whoop.ts CycleScore). -/
structure CycleScore where
  strain : ℚ
  kilojoule : ℚ
  average_heart_rate : ℚ
deriving DecidableEq, Repr

/-- The strain branch of formatSummaryColor (src/utils/format.ts
lines 163-166): recoveryScore = recovery?.score?.recovery_score ?? 50;
optimal = recoveryScore >= 67 ? 14 : recoveryScore >= 34 ? 10 : 6;
diff = |strain - optimal|. Returns (optimal, diff). -/
def strainAssessment (recovery : Option WhoopRecovery) (c : CycleScore) : ℚ × ℚ :=
  let recoveryScore :=
    ((recovery.bind WhoopRecovery.score).map RecoveryScore.recovery_score).getD 50
  let optimal : ℚ := if recoveryScore ≥ 67 then 14 else if recoveryScore ≥ 34 then 10 else 6
  (optimal, |c.strain - optimal|)

/-! ## CLI validation (src/cli.ts) -/

/-- The numeric value of a digit string, as Number parses an all-digit
string. -/
def digitsValue (cs : List Char) : Nat :=
  cs.foldl (fun acc c => acc * 10 + (c.toNat - 48)) 0

/-- parseLimit (src/cli.ts lines 103-112): the limit string must match the
all-digit pattern, and its value must be a safe integer, positive, and at
most 25; otherwise a validation error is thrown before any network call.
Number(s) for an all-digit string is modelled by the exact decimal value: for
values at most 25 the JS double is exact, and larger values stay larger after
rounding, so every branch decides identically. -/
def parseLimit (limit : String) : Except String Nat :=
  if !(limit.data.length > 0 && limit.data.all Char.isDigit) then
    Except.error "Limit must be an integer between 1 and 25"
  else
    let parsed := digitsValue limit.data
    if !(parsed ≤ 9007199254740991) || parsed = 0 || parsed > 25 then
      Except.error "Limit must be an integer between 1 and 25"
    else
      Except.ok parsed

/-- The pre-network phase of the trends command action (src/cli.ts
lines 344-351): validate that days is 7, 14 or 30, then construct the page
limit as days + 5 and use it for the range queries. parseLimit is not
applied on this path. Returns the limit that will be sent. -/
def trendsAction (days : Int) : Except String Int :=
  if !(days = 7 || days = 14 || days = 30) then
    Except.error "Days must be 7, 14, or 30"
  else
    Except.ok (days + 5)

/-- The resource types of src/types/whoop.ts DataType. -/
inductive DataType where
  | sleep
  | recovery
  | workout
  | cycle
  | profile
  | body
deriving DecidableEq, Repr

/-- The collection resource kinds (src/cli.ts line 425): sleep, recovery,
workout, cycle. -/
def isCollectionType : DataType → Bool
  | .sleep => true
  | .recovery => true
  | .workout => true
  | .cycle => true
  | .profile => false
  | .body => false

/-- The next-token guard of the root command action (src/cli.ts
lines 423-433): when a next token is supplied, proceed only if exactly one
type was requested and exactly one of the requested types is a collection
type; otherwise throw before any fetch. Returns true when the call
proceeds to fetching. -/
def rootNextTokenCheck (types : List DataType) (hasNextToken : Bool) : Bool :=
  if hasNextToken then
    types.length == 1 && (types.filter isCollectionType).length == 1
  else
    true

/-! ## Theorems -/

theorem fetchCollectionAll_congr_head {C T : Type} (server : Option C → Page C T)
    (a b : Option C) (h : server a = server b) (fuel : Nat) :
    fetchCollectionAll server a fuel = fetchCollectionAll server b fuel := by
  cases fuel with
  | zero => rfl
  | succ fuel => simp only [fetchCollectionAll, h]

theorem fetchCollectionAll_chainServer_from {T : Type} (pages : List (List T)) :
    ∀ fuel i, i < pages.length → pages.length - i ≤ fuel →
      fetchCollectionAll (chainServer pages) (some i) fuel =
        some ((pages.drop i).flatten, pages.length - i) := by
  intro fuel
  induction fuel with
  | zero => intro i hi hf; omega
  | succ fuel ih =>
    intro i hi hf
    by_cases hlast : i + 1 < pages.length
    · have hrec := ih (i + 1) hlast (by omega)
      simp only [fetchCollectionAll, chainServer, Option.getD_some, if_pos hlast, hrec]
      rw [List.getD_eq_getElem pages [] hi, List.drop_eq_getElem_cons hi, List.flatten_cons]
      have hn : pages.length - (i + 1) + 1 = pages.length - i := by omega
      rw [hn]
    · simp only [fetchCollectionAll, chainServer, Option.getD_some, if_neg hlast]
      rw [List.getD_eq_getElem pages [] hi, List.drop_eq_getElem_cons hi]
      have hdrop : pages.drop (i + 1) = [] := List.drop_eq_nil_of_le (by omega)
      rw [hdrop, List.flatten_cons, List.flatten_nil, List.append_nil]
      have hn : pages.length - i = 1 := by omega
      rw [hn]

/-- C1: for every finite sequence of pages returned by the remote collaborator
(each page a record list plus an optional next cursor, the last page carrying
none), fetchCollection in fetch-all mode returns exactly the concatenation of
the record lists of all pages in server order, issues exactly one request per
page (N requests for N pages), and terminates precisely when a page carries no
continuation cursor: the result is independent of any fuel bound covering the
page count. -/
theorem fetchCollectionAll_concat_all_pages {T : Type} (pages : List (List T)) (fuel : Nat)
    (hne : pages ≠ []) (hfuel : pages.length ≤ fuel) :
    fetchCollectionAll (chainServer pages) none fuel =
      some (pages.flatten, pages.length) := by
  have h0 : chainServer pages none = chainServer pages (some 0) := rfl
  rw [fetchCollectionAll_congr_head (chainServer pages) none (some 0) h0 fuel]
  have hlen : 0 < pages.length := List.length_pos.mpr hne
  have h := fetchCollectionAll_chainServer_from pages fuel 0 hlen (by omega)
  simpa using h

/-- Witness for C1 at a concrete three-page sequence. -/
theorem fetchCollectionAll_concat_all_pages_witness :
    fetchCollectionAll (chainServer [[1, 2], [3], [4, 5]]) none 3 =
      some ([1, 2, 3, 4, 5], 3) :=
  fetchCollectionAll_concat_all_pages [[1, 2], [3], [4, 5]] 3 (by decide) (by decide)

/-- C2: getValidTokens treats a stored credential as expired exactly when the
current time is within 60 seconds of (or past) expires_at; with
expires_at = now + 30 it triggers a refresh (one token-exchange call), with
expires_at = now + 120 it performs no refresh and returns the stored
credential unchanged, leaving the store untouched. -/
theorem getValidTokens_expiry_margin (env : AuthEnv) (t : TokenData)
    (hs : env.store = some t) (hc : env.hasClientCreds = true) :
    (isTokenExpired env.now t = true ↔ env.now ≥ t.expires_at - 60) ∧
    (t.expires_at = env.now + 30 → (getValidTokens env).exchangeCalls = 1) ∧
    (t.expires_at = env.now + 120 →
      (getValidTokens env).exchangeCalls = 0 ∧
      (getValidTokens env).result = .ok t ∧
      (getValidTokens env).store = env.store) := by
  refine ⟨by simp [isTokenExpired], ?_, ?_⟩
  · intro h30
    have hexp : isTokenExpired env.now t = true := by
      simp only [isTokenExpired, h30, decide_eq_true_eq]
      omega
    cases henv : env.refreshResponse <;>
      simp [getValidTokens, hs, hexp, refreshAccessToken, hc, henv]
  · intro h120
    have hexp : isTokenExpired env.now t = false := by
      simp only [isTokenExpired, h120, decide_eq_false_iff_not, not_le]
      omega
    simp [getValidTokens, hs, hexp]

/-- Witness for C2: a credential expiring in 30 seconds triggers exactly one
token-exchange call. -/
theorem getValidTokens_expiry_margin_witness :
    (getValidTokens ⟨some ⟨"a", "r", 1000, "bearer", "read"⟩, true,
        some ⟨"a2", "r2", 3600, "bearer", "read"⟩, 970⟩).exchangeCalls = 1 :=
  (getValidTokens_expiry_margin _ _ rfl rfl).2.1 (by decide)

/-- C3: when the remote authorization server rejects a refresh attempt
(non-2xx token-exchange response), refreshAccessToken surfaces an auth error
and the stored credential is left unchanged; the same holds through
getValidTokens when it takes the refresh path. -/
theorem refreshAccessToken_failure_preserves_store (env : AuthEnv) (t : TokenData)
    (hc : env.hasClientCreds = true) (hr : env.refreshResponse = none) :
    (refreshAccessToken env t).result = .error .refreshRejected ∧
    (refreshAccessToken env t).store = env.store ∧
    (env.store = some t → isTokenExpired env.now t = true →
      (getValidTokens env).result = .error .refreshRejected ∧
      (getValidTokens env).store = some t) := by
  have h : refreshAccessToken env t =
      { result := .error .refreshRejected, store := env.store, exchangeCalls := 1 } := by
    simp [refreshAccessToken, hc, hr]
  refine ⟨by rw [h], by rw [h], ?_⟩
  intro hs hexp
  constructor
  · simp [getValidTokens, hs, hexp, h]
  · simp [getValidTokens, hs, hexp, h]

/-- Witness for C3: a rejected refresh leaves the concrete stored credential
in place. -/
theorem refreshAccessToken_failure_preserves_store_witness :
    (refreshAccessToken ⟨some ⟨"a", "r", 1000, "bearer", "read"⟩, true, none, 2000⟩
        ⟨"a", "r", 1000, "bearer", "read"⟩).store =
      some ⟨"a", "r", 1000, "bearer", "read"⟩ :=
  (refreshAccessToken_failure_preserves_store _ _ rfl rfl).2.1

/-- C6: getTokenStatus reports whether a credential exists and its expiry
instant, leaves the stored credential unchanged for every store state, and
issues no token-exchange call. -/
theorem getTokenStatus_no_side_effects (store : Option TokenData) :
    (getTokenStatus store).2.1 = store ∧
    (getTokenStatus store).2.2 = 0 ∧
    (getTokenStatus store).1.authenticated = store.isSome ∧
    (∀ t, store = some t → (getTokenStatus store).1.expires_at = some t.expires_at) := by
  cases store with
  | none => refine ⟨rfl, rfl, rfl, ?_⟩; intro t h; cases h
  | some t => refine ⟨rfl, rfl, rfl, ?_⟩; intro u h; cases h; rfl

/-- Witness for C6: the status query on a concrete stored credential reports
its expiry instant. -/
theorem getTokenStatus_no_side_effects_witness :
    (getTokenStatus (some ⟨"a", "r", 1000, "bearer", "read"⟩)).1.expires_at = some 1000 :=
  (getTokenStatus_no_side_effects (some ⟨"a", "r", 1000, "bearer", "read"⟩)).2.2.2 _ rfl

/-- C10: loadTokens is total over arbitrary token-file contents — absent
file, empty file, or contents the JSON parser rejects all yield none rather
than an exception — and after clearTokens (which overwrites an existing file
with the empty string rather than removing it) loadTokens yields none, so the
credential reads as absent. The hypothesis records that the JS runtime
JSON.parse throws on the empty string. -/
theorem loadTokens_total_and_clear (jsonParse : String → Option TokenData)
    (hp : jsonParse "" = none) (file : Option String) :
    loadTokens jsonParse none = none ∧
    (∀ c, jsonParse c = none → loadTokens jsonParse (some c) = none) ∧
    loadTokens jsonParse (clearTokens file) = none ∧
    (∀ c, file = some c → clearTokens file = some "") := by
  refine ⟨rfl, fun c hc => hc, ?_, ?_⟩
  · cases file <;> simp [clearTokens, loadTokens, hp]
  · intro c hc; cases hc; rfl

/-- Witness for C10: after clearing a concrete token file, loading yields
none. -/
theorem loadTokens_total_and_clear_witness :
    loadTokens (fun _ => none) (clearTokens (some "old token json")) = none :=
  (loadTokens_total_and_clear (fun _ => none) rfl (some "old token json")).2.2.1

/-- C4 counterexample: on the collection [pending main record, scored nap],
getSleep returns the first (unscored) record, while the three-tier policy as
claimed — preferring the first scored record regardless of the nap flag when
no scored non-nap record exists — returns the scored nap. The claimed middle
tier does not exist in the code. -/
theorem getSleep_policy_counterexample :
    getSleep (some [pendingMain, scoredNap]) = some pendingMain ∧
    pickRepresentativeSpec [pendingMain, scoredNap] = some scoredNap ∧
    getSleep (some [pendingMain, scoredNap]) ≠
      pickRepresentativeSpec [pendingMain, scoredNap] := by
  refine ⟨by decide, by decide, by decide⟩

/-- C4 (amended): representative sleep selection has two tiers, not three:
(1) the first record that is scored (state SCORED with a non-null score
payload) and not flagged as a nap or secondary entry; (2) if none qualifies,
the first record in server order regardless of scoring state, with its
non-scored state exposed, never an error on a nonempty collection. -/
theorem getSleep_selection (l : List WhoopSleep) :
    ((∃ s ∈ l, scoredNonNap s = true) →
      ∃ s, getSleep (some l) = some s ∧ s ∈ l ∧ scoredNonNap s = true ∧
        l.find? scoredNonNap = some s) ∧
    ((∀ s ∈ l, scoredNonNap s = false) → getSleep (some l) = l.head?) ∧
    (l ≠ [] → (getSleep (some l)).isSome = true) := by
  refine ⟨?_, ?_, ?_⟩
  · intro hex
    have hsome : (l.find? scoredNonNap).isSome := List.find?_isSome.mpr hex
    obtain ⟨s, hs⟩ := Option.isSome_iff_exists.mp hsome
    exact ⟨s, by simp [getSleep, hs], List.mem_of_find?_eq_some hs, List.find?_some hs, hs⟩
  · intro hall
    have hnone : l.find? scoredNonNap = none := by
      rw [List.find?_eq_none]
      intro x hx
      simp [hall x hx]
    simp [getSleep, hnone]
  · intro hne
    cases hf : l.find? scoredNonNap with
    | some s => simp [getSleep, hf]
    | none =>
      simp only [getSleep, hf]
      cases l with
      | nil => exact absurd rfl hne
      | cons a l => rfl

/-- Witness for the amended C4 on an all-unscored collection: selection falls
back to the first record. -/
theorem getSleep_selection_witness :
    getSleep (some [pendingMain]) = [pendingMain].head? :=
  (getSleep_selection [pendingMain]).2.1 (by decide)

/-- C7: when a collection contains exactly one scored non-nap record, getSleep
returns that record regardless of its position. -/
theorem getSleep_unique_scored_nonnap (l : List WhoopSleep) (s : WhoopSleep)
    (hmem : s ∈ l) (hs : scoredNonNap s = true)
    (huniq : ∀ t ∈ l, scoredNonNap t = true → t = s) :
    getSleep (some l) = some s := by
  have hsome : (l.find? scoredNonNap).isSome := List.find?_isSome.mpr ⟨s, hmem, hs⟩
  obtain ⟨x, hx⟩ := Option.isSome_iff_exists.mp hsome
  have hxs : x = s := huniq x (List.mem_of_find?_eq_some hx) (List.find?_some hx)
  subst hxs
  simp [getSleep, hx]

/-- Witness for C7 with the unique scored non-nap record at the last
position, behind a scored nap and an unscored record. -/
theorem getSleep_unique_scored_nonnap_witness :
    getSleep (some [scoredNap, pendingMain, scoredMain]) = some scoredMain :=
  getSleep_unique_scored_nonnap [scoredNap, pendingMain, scoredMain] scoredMain
    (by decide) (by decide) (by decide)

/-- C8: the optimal strain target in formatSummaryColor is derived from the
recovery band — recovery score at least 67 yields target 14, at least 34
yields 10, otherwise 6 — and the actual cumulative day strain is compared
against that target as an absolute difference. -/
theorem strainAssessment_bands (recovery : Option WhoopRecovery) (c : CycleScore) (rs : ℚ)
    (hrs : ((recovery.bind WhoopRecovery.score).map RecoveryScore.recovery_score).getD 50
      = rs) :
    (67 ≤ rs → (strainAssessment recovery c).1 = 14) ∧
    (34 ≤ rs → rs < 67 → (strainAssessment recovery c).1 = 10) ∧
    (rs < 34 → (strainAssessment recovery c).1 = 6) ∧
    (strainAssessment recovery c).2 = |c.strain - (strainAssessment recovery c).1| := by
  have h1 : strainAssessment recovery c =
      (if rs ≥ 67 then (14 : ℚ) else if rs ≥ 34 then 10 else 6,
       |c.strain - (if rs ≥ 67 then (14 : ℚ) else if rs ≥ 34 then 10 else 6)|) := by
    simp only [strainAssessment, hrs]
  refine ⟨?_, ?_, ?_, rfl⟩
  · intro h67
    rw [h1]
    show (if rs ≥ 67 then (14 : ℚ) else if rs ≥ 34 then 10 else 6) = 14
    rw [if_pos h67]
  · intro h34 h67
    rw [h1]
    show (if rs ≥ 67 then (14 : ℚ) else if rs ≥ 34 then 10 else 6) = 10
    rw [if_neg (not_le.mpr h67), if_pos h34]
  · intro h34
    rw [h1]
    show (if rs ≥ 67 then (14 : ℚ) else if rs ≥ 34 then 10 else 6) = 6
    rw [if_neg (not_le.mpr (lt_of_lt_of_le h34 (by norm_num))),
      if_neg (not_le.mpr h34)]

/-- Witness for C8: a recovery score of 80 yields the high-band target 14. -/
theorem strainAssessment_bands_witness :
    (strainAssessment (some ⟨"SCORED", some ⟨80, 42, 55⟩⟩) ⟨12, 4000, 120⟩).1 = 14 :=
  (strainAssessment_bands (some ⟨"SCORED", some ⟨80, 42, 55⟩⟩) ⟨12, 4000, 120⟩ 80 rfl).1
    (by norm_num)

/-- C5 counterexample: the trends command accepts days = 30, constructs the
page limit 30 + 5 = 35 — outside [1, 25] — and proceeds toward the network
without client-side rejection; parseLimit, which rejects the same value, is
not applied on this path. -/
theorem trendsAction_limit_counterexample :
    trendsAction 30 = Except.ok 35 ∧ ¬(35 ≤ (25 : Int)) ∧
    parseLimit "35" = Except.error "Limit must be an integer between 1 and 25" :=
  ⟨rfl, by decide, by rfl⟩

/-- C5 (amended): every caller-supplied page-size limit goes through
parseLimit, which only accepts integer values inside [1, 25] and rejects the
rest before any network call; the trends command, however, constructs its
limit internally as days + 5 without this validation, sending 35 when
days = 30. -/
theorem parseLimit_bounds (s : String) (n : Nat) (h : parseLimit s = Except.ok n) :
    (1 ≤ n ∧ n ≤ 25) ∧ trendsAction 30 = Except.ok 35 := by
  refine ⟨?_, rfl⟩
  simp only [parseLimit] at h
  split at h
  · cases h
  · split at h
    · cases h
    · rename_i hguard
      rw [Except.ok.injEq] at h
      subst h
      simp only [Bool.or_eq_true, Bool.not_eq_true, decide_eq_true_eq,
        decide_eq_false_iff_not, not_or] at hguard
      omega

/-- Witness for the amended C5: parseLimit accepts 25 and the trends limit
for 30 days is 35. -/
theorem parseLimit_bounds_witness :
    ((1 ≤ 25 ∧ 25 ≤ 25) ∧ trendsAction 30 = Except.ok 35) :=
  parseLimit_bounds "25" 25 (by rfl)

/-- C9: with an externally supplied pagination cursor, the root command
proceeds only when the requested types name exactly one collection resource
type (sleep, recovery, workout or cycle); any request naming zero or more
than one collection type together with a cursor is rejected before any
fetch. -/
theorem rootNextTokenCheck_single_collection (types : List DataType) :
    (rootNextTokenCheck types true = true →
      (types.filter isCollectionType).length = 1) ∧
    ((types.filter isCollectionType).length ≠ 1 →
      rootNextTokenCheck types true = false) := by
  constructor
  · intro h
    simp only [rootNextTokenCheck, if_true, Bool.and_eq_true, beq_iff_eq] at h
    exact h.2
  · intro h
    simp only [rootNextTokenCheck, if_true]
    rw [Bool.and_eq_false_iff]
    right
    simpa using h

/-- Witness for C9: a cursor together with two collection types is
rejected. -/
theorem rootNextTokenCheck_single_collection_witness :
    rootNextTokenCheck [DataType.sleep, DataType.recovery] true = false :=
  (rootNextTokenCheck_single_collection [DataType.sleep, DataType.recovery]).2 (by decide)

end Whoopskill
